import Mathlib

/-!
Verification of the borealis gesture-recognition layer and Switch platform
shim against their specification.

The tap recognizer (`library/include/borealis/touch/tap_gesture_recognizer.hpp`)
is declared in the repository header only; its member-function bodies are not
part of the visible sources, so the recognition step is modelled from the
specification (sections 4.1, 4.2, 6 and 8).  The `SwitchPlatform` member
functions are embedded directly from the visible source.
-/

namespace Borealis

/-- Touch phases of a single contact, from the spec's data model:
START (finger down), STAY (finger held or moving), END (finger up),
NONE (no contact this tick). -/
inductive TouchPhase where
  | START
  | STAY
  | END
  | NONE
deriving DecidableEq, Repr

/-- One per-tick touch input sample: a phase and a position in surface
coordinates.  Coordinates are modelled as integers; the spec compares
displacements against the integer threshold 10 axis by axis. -/
structure TouchState where
  phase : TouchPhase
  x : Int
  y : Int
deriving DecidableEq, Repr

/-- `#define MAX_DELTA_MOVEMENT 10` from `tap_gesture_recognizer.hpp`. -/
def MAX_DELTA_MOVEMENT : Nat := 10

/-- State of a `TapGestureRecognizer`: last recorded touch-down position
`(x, y)`, the running tap `counter`, and the configured `target` tap count
(fields of the class in `tap_gesture_recognizer.hpp`, lines 37-41).
The response callback is not part of the state; firing it is reported as a
flag in `LoopResult`. -/
structure TapGestureRecognizer where
  x : Int
  y : Int
  counter : Nat
  target : Nat
deriving DecidableEq, Repr

/-- Outcome of one `recognitionLoop` call: the successor recognizer state,
the boolean return value (`continues`), and whether the response callback
was invoked during the call (`fired`). -/
structure LoopResult where
  state : TapGestureRecognizer
  continues : Bool
  fired : Bool
deriving DecidableEq, Repr

/-- Modelled from the spec: `TapGestureRecognizer::recognitionLoop`, whose
body is absent from the visible sources (the header only declares it).
Spec section 4.2:
* if `locked` is true at any point, reset `counter` to 0 and return `false`,
  regardless of phase (property P3);
* on START, record the position as the down-position for this cycle;
* on STAY, if displacement from the recorded position exceeds
  `MAX_DELTA_MOVEMENT` on either axis, reset `counter` to 0 and continue;
* on END, if the displacement bound is still satisfied increment `counter`;
  when it reaches `target`, invoke the response, reset `counter` to 0 and
  return `false`, otherwise return `true`; if the bound is violated the
  counter stays 0 and the call returns `false` (scenario C);
* on NONE nothing happens and polling continues. -/
def recognitionLoop (s : TapGestureRecognizer) (touch : TouchState)
    (locked : Bool) : LoopResult :=
  if locked then
    ⟨{ s with counter := 0 }, false, false⟩
  else
    match touch.phase with
    | TouchPhase.START => ⟨{ s with x := touch.x, y := touch.y }, true, false⟩
    | TouchPhase.STAY =>
        if MAX_DELTA_MOVEMENT < (touch.x - s.x).natAbs ∨
            MAX_DELTA_MOVEMENT < (touch.y - s.y).natAbs then
          ⟨{ s with counter := 0 }, true, false⟩
        else
          ⟨s, true, false⟩
    | TouchPhase.END =>
        if MAX_DELTA_MOVEMENT < (touch.x - s.x).natAbs ∨
            MAX_DELTA_MOVEMENT < (touch.y - s.y).natAbs then
          ⟨{ s with counter := 0 }, false, false⟩
        else if s.counter + 1 = s.target then
          ⟨{ s with counter := 0 }, false, true⟩
        else
          ⟨{ s with counter := s.counter + 1 }, true, false⟩
    | TouchPhase.NONE => ⟨s, true, false⟩

/-- Default value of the constructor's `target` argument, from the header:
`TapGestureRecognizer(TapGestureRespond respond, int target = 1);`. -/
def defaultTarget : Nat := 1

/-- Modelled from the spec: the constructor stores the `target` tap count and
starts in the IDLE state (`counter == 0`, spec section 4.2); the recorded
position is immaterial before the first START and is modelled as the origin. -/
def mkTapGestureRecognizer (target : Nat) : TapGestureRecognizer :=
  { x := 0, y := 0, counter := 0, target := target }

/-- A recognizer in its initial IDLE state with an arbitrary recorded
position: `counter = 0` and the given `target`. -/
def initialTap (x0 y0 : Int) (target : Nat) : TapGestureRecognizer :=
  { x := x0, y := y0, counter := 0, target := target }

/-- Run `recognitionLoop` over a list of touch samples with `locked = false`
throughout, returning the final state and the list of per-call
`(return value, fired)` pairs. -/
def runAll (s : TapGestureRecognizer) :
    List TouchState → TapGestureRecognizer × List (Bool × Bool)
  | [] => (s, [])
  | t :: ts =>
      let r := recognitionLoop s t false
      let rest := runAll r.state ts
      (rest.1, (r.continues, r.fired) :: rest.2)

/-- Run `recognitionLoop` over a list of `(touch, locked)` pairs, returning
only the final state. -/
def runSteps (s : TapGestureRecognizer) :
    List (TouchState × Bool) → TapGestureRecognizer
  | [] => s
  | p :: rest => runSteps (recognitionLoop s p.1 p.2).state rest

/-- One complete tap cycle: a START at `(sx, sy)`, a list of STAY samples,
and an END at `(ex, ey)`. -/
structure TapCycle where
  sx : Int
  sy : Int
  stays : List (Int × Int)
  ex : Int
  ey : Int
deriving DecidableEq, Repr

/-- The touch-sample stream of one tap cycle. -/
def TapCycle.touches (c : TapCycle) : List TouchState :=
  ⟨TouchPhase.START, c.sx, c.sy⟩ ::
    (c.stays.map (fun p => ⟨TouchPhase.STAY, p.1, p.2⟩) ++
      [⟨TouchPhase.END, c.ex, c.ey⟩])

/-- A cycle stays within the movement bound: every STAY sample and the END
sample are within `MAX_DELTA_MOVEMENT` of the START position on both axes. -/
def TapCycle.withinBound (c : TapCycle) : Bool :=
  c.stays.all (fun p =>
      decide ((p.1 - c.sx).natAbs ≤ MAX_DELTA_MOVEMENT) &&
      decide ((p.2 - c.sy).natAbs ≤ MAX_DELTA_MOVEMENT)) &&
    (decide ((c.ex - c.sx).natAbs ≤ MAX_DELTA_MOVEMENT) &&
      decide ((c.ey - c.sy).natAbs ≤ MAX_DELTA_MOVEMENT))

/-- The concatenated touch stream of a list of tap cycles. -/
def cyclesTouches : List TapCycle → List TouchState
  | [] => []
  | c :: cs => c.touches ++ cyclesTouches cs

lemma recognitionLoop_locked (s : TapGestureRecognizer) (t : TouchState) :
    recognitionLoop s t true = ⟨{ s with counter := 0 }, false, false⟩ := rfl

lemma recognitionLoop_start (s : TapGestureRecognizer) (x y : Int) :
    recognitionLoop s ⟨TouchPhase.START, x, y⟩ false =
      ⟨{ s with x := x, y := y }, true, false⟩ := rfl

lemma recognitionLoop_stay_within (s : TapGestureRecognizer) (x y : Int)
    (hx : (x - s.x).natAbs ≤ MAX_DELTA_MOVEMENT)
    (hy : (y - s.y).natAbs ≤ MAX_DELTA_MOVEMENT) :
    recognitionLoop s ⟨TouchPhase.STAY, x, y⟩ false = ⟨s, true, false⟩ := by
  simp only [recognitionLoop, if_neg (Bool.false_ne_true)]
  rw [if_neg]
  push_neg
  exact ⟨hx, hy⟩

lemma recognitionLoop_end_fire (s : TapGestureRecognizer) (x y : Int)
    (hx : (x - s.x).natAbs ≤ MAX_DELTA_MOVEMENT)
    (hy : (y - s.y).natAbs ≤ MAX_DELTA_MOVEMENT)
    (hc : s.counter + 1 = s.target) :
    recognitionLoop s ⟨TouchPhase.END, x, y⟩ false =
      ⟨{ s with counter := 0 }, false, true⟩ := by
  simp only [recognitionLoop, if_neg (Bool.false_ne_true)]
  rw [if_neg, if_pos hc]
  push_neg
  exact ⟨hx, hy⟩

lemma recognitionLoop_end_count (s : TapGestureRecognizer) (x y : Int)
    (hx : (x - s.x).natAbs ≤ MAX_DELTA_MOVEMENT)
    (hy : (y - s.y).natAbs ≤ MAX_DELTA_MOVEMENT)
    (hc : s.counter + 1 ≠ s.target) :
    recognitionLoop s ⟨TouchPhase.END, x, y⟩ false =
      ⟨{ s with counter := s.counter + 1 }, true, false⟩ := by
  simp only [recognitionLoop, if_neg (Bool.false_ne_true)]
  rw [if_neg, if_neg hc]
  push_neg
  exact ⟨hx, hy⟩

lemma recognitionLoop_target (s : TapGestureRecognizer) (t : TouchState)
    (l : Bool) : (recognitionLoop s t l).state.target = s.target := by
  rcases t with ⟨ph, x, y⟩
  cases l <;> cases ph <;> simp only [recognitionLoop] <;> split_ifs <;> rfl

lemma recognitionLoop_counter_lt (s : TapGestureRecognizer) (t : TouchState)
    (l : Bool) (h : s.counter < s.target) :
    (recognitionLoop s t l).state.counter < s.target := by
  rcases t with ⟨ph, x, y⟩
  cases l <;> cases ph <;> simp only [recognitionLoop] <;> split_ifs <;>
    simp only [] <;> omega

lemma runAll_append (s : TapGestureRecognizer) (l1 l2 : List TouchState) :
    runAll s (l1 ++ l2) =
      ((runAll (runAll s l1).1 l2).1,
        (runAll s l1).2 ++ (runAll (runAll s l1).1 l2).2) := by
  induction l1 generalizing s with
  | nil => simp [runAll]
  | cons t ts ih =>
      simp only [List.cons_append, runAll, ih, List.append_eq]

lemma runAll_stays (s : TapGestureRecognizer) (stays : List (Int × Int))
    (hb : ∀ p ∈ stays, (p.1 - s.x).natAbs ≤ MAX_DELTA_MOVEMENT ∧
      (p.2 - s.y).natAbs ≤ MAX_DELTA_MOVEMENT) :
    runAll s (stays.map (fun p => ⟨TouchPhase.STAY, p.1, p.2⟩)) =
      (s, List.replicate stays.length (true, false)) := by
  induction stays with
  | nil => rfl
  | cons p ps ih =>
      have hp := hb p (List.mem_cons_self _ _)
      simp only [List.map_cons, runAll,
        recognitionLoop_stay_within s p.1 p.2 hp.1 hp.2]
      rw [ih (fun q hq => hb q (List.mem_cons_of_mem _ hq))]
      simp [List.replicate]

lemma withinBound_elim (c : TapCycle) (h : c.withinBound = true) :
    (∀ p ∈ c.stays, (p.1 - c.sx).natAbs ≤ MAX_DELTA_MOVEMENT ∧
        (p.2 - c.sy).natAbs ≤ MAX_DELTA_MOVEMENT) ∧
      (c.ex - c.sx).natAbs ≤ MAX_DELTA_MOVEMENT ∧
      (c.ey - c.sy).natAbs ≤ MAX_DELTA_MOVEMENT := by
  unfold TapCycle.withinBound at h
  rw [Bool.and_eq_true, Bool.and_eq_true, List.all_eq_true] at h
  refine ⟨fun p hp => ?_, by simpa using h.2.1, by simpa using h.2.2⟩
  have := h.1 p hp
  rw [Bool.and_eq_true] at this
  exact ⟨by simpa using this.1, by simpa using this.2⟩

lemma runAll_cycle_count (s : TapGestureRecognizer) (c : TapCycle)
    (hwb : c.withinBound = true) (hc : s.counter + 1 ≠ s.target) :
    runAll s c.touches =
      (⟨c.sx, c.sy, s.counter + 1, s.target⟩,
        List.replicate (c.stays.length + 2) (true, false)) := by
  obtain ⟨hstays, hex, hey⟩ := withinBound_elim c hwb
  unfold TapCycle.touches
  simp only [runAll, recognitionLoop_start]
  rw [runAll_append]
  rw [runAll_stays _ c.stays (by simpa using hstays)]
  have hend := recognitionLoop_end_count ⟨c.sx, c.sy, s.counter, s.target⟩
    c.ex c.ey (by simpa using hex) (by simpa using hey) (by simpa using hc)
  simp only [runAll, hend]
  have hrep : List.replicate (c.stays.length + 2) ((true, false) : Bool × Bool)
      = (true, false) ::
        (List.replicate c.stays.length (true, false) ++ [(true, false)]) := by
    rw [show c.stays.length + 2 = (c.stays.length + 1) + 1 by omega,
      List.replicate_succ' (c.stays.length + 1), List.replicate_succ]
    simp
  rw [hrep]

lemma runAll_cycle_fire (s : TapGestureRecognizer) (c : TapCycle)
    (hwb : c.withinBound = true) (hc : s.counter + 1 = s.target) :
    runAll s c.touches =
      (⟨c.sx, c.sy, 0, s.target⟩,
        List.replicate (c.stays.length + 1) (true, false) ++
          [(false, true)]) := by
  obtain ⟨hstays, hex, hey⟩ := withinBound_elim c hwb
  unfold TapCycle.touches
  simp only [runAll, recognitionLoop_start]
  rw [runAll_append]
  rw [runAll_stays _ c.stays (by simpa using hstays)]
  have hend := recognitionLoop_end_fire ⟨c.sx, c.sy, s.counter, s.target⟩
    c.ex c.ey (by simpa using hex) (by simpa using hey) (by simpa using hc)
  simp only [runAll, hend]
  rw [List.replicate_succ]
  simp

lemma touches_length (c : TapCycle) :
    c.touches.length = c.stays.length + 2 := by
  simp [TapCycle.touches]

lemma cyclesTouches_length_pos (c : TapCycle) (cs : List TapCycle) :
    0 < (cyclesTouches (c :: cs)).length := by
  simp [cyclesTouches, TapCycle.touches]

lemma runAll_cycles (cs : List TapCycle) (s : TapGestureRecognizer)
    (h : s.counter + cs.length = s.target) (hne : cs ≠ [])
    (hwb : ∀ c ∈ cs, c.withinBound = true) :
    (runAll s (cyclesTouches cs)).2 =
        List.replicate ((cyclesTouches cs).length - 1) (true, false) ++
          [(false, true)] ∧
      (runAll s (cyclesTouches cs)).1.counter = 0 ∧
      (runAll s (cyclesTouches cs)).1.target = s.target := by
  induction cs generalizing s with
  | nil => exact absurd rfl hne
  | cons c rest ih =>
      cases rest with
      | nil =>
          have hc : s.counter + 1 = s.target := by
            simpa using h
          have hfire := runAll_cycle_fire s c (hwb c (by simp)) hc
          simp only [cyclesTouches, List.append_nil] at *
          rw [hfire]
          refine ⟨?_, rfl, rfl⟩
          rw [touches_length]
          simp
      | cons c2 cs2 =>
          have hcnt : s.counter + 1 ≠ s.target := by
            simp only [List.length_cons] at h
            omega
          have hstep := runAll_cycle_count s c (hwb c (by simp)) hcnt
          have hrest : (⟨c.sx, c.sy, s.counter + 1, s.target⟩ :
              TapGestureRecognizer).counter + (c2 :: cs2).length =
              (⟨c.sx, c.sy, s.counter + 1, s.target⟩ :
                TapGestureRecognizer).target := by
            simp only [List.length_cons] at h ⊢
            omega
          have ihr := ih ⟨c.sx, c.sy, s.counter + 1, s.target⟩ hrest
            (by simp) (fun d hd => hwb d (List.mem_cons_of_mem _ hd))
          have hsplit : cyclesTouches (c :: c2 :: cs2) =
              c.touches ++ cyclesTouches (c2 :: cs2) := rfl
          rw [hsplit, runAll_append, hstep]
          refine ⟨?_, ihr.2.1, ihr.2.2⟩
          rw [ihr.1]
          have hpos := cyclesTouches_length_pos c2 cs2
          rw [← List.append_assoc, ← List.replicate_add]
          have hlen : c.stays.length + 2 +
              ((cyclesTouches (c2 :: cs2)).length - 1) =
              (c.touches ++ cyclesTouches (c2 :: cs2)).length - 1 := by
            rw [List.length_append, touches_length]
            omega
          rw [hlen]

lemma runSteps_target (s : TapGestureRecognizer)
    (inputs : List (TouchState × Bool)) :
    (runSteps s inputs).target = s.target := by
  induction inputs generalizing s with
  | nil => rfl
  | cons p ps ih =>
      simp only [runSteps]
      rw [ih, recognitionLoop_target]

lemma runSteps_counter_lt (s : TapGestureRecognizer)
    (inputs : List (TouchState × Bool)) (h : s.counter < s.target) :
    (runSteps s inputs).counter < s.target := by
  induction inputs generalizing s with
  | nil => exact h
  | cons p ps ih =>
      simp only [runSteps]
      have hstep := recognitionLoop_counter_lt s p.1 p.2 h
      have htar := recognitionLoop_target s p.1 p.2
      have := ih (recognitionLoop s p.1 p.2).state (by rw [htar]; exact hstep)
      rwa [htar] at this

/-- C1: for a recognizer with `target = N` (N ≥ 1), feeding exactly N complete
START→END tap cycles (with any in-bound STAY samples, `locked = false`
throughout) makes every call except the last return `true` without firing,
and the last call — the one delivering the N-th END — fire the response,
return `false`, and reset `counter` to 0. -/
theorem c1_n_cycles_fire_once_on_nth_end (N : Nat) (x0 y0 : Int)
    (cycles : List TapCycle) (hN : 1 ≤ N) (hlen : cycles.length = N)
    (hwb : ∀ c ∈ cycles, c.withinBound = true) :
    (runAll (initialTap x0 y0 N) (cyclesTouches cycles)).2 =
        List.replicate ((cyclesTouches cycles).length - 1) (true, false) ++
          [(false, true)] ∧
      (runAll (initialTap x0 y0 N) (cyclesTouches cycles)).1.counter = 0 := by
  have hne : cycles ≠ [] := by
    intro hnil
    rw [hnil] at hlen
    simp at hlen
    omega
  have h := runAll_cycles cycles (initialTap x0 y0 N)
    (by simp [initialTap, hlen]) hne hwb
  exact ⟨h.1, h.2.1⟩

/-- Witness for C1 at N = 2 with two concrete in-bound tap cycles. -/
theorem c1_witness :
    (runAll (initialTap 0 0 2)
        (cyclesTouches [⟨0, 0, [], 0, 0⟩, ⟨0, 0, [(1, 1)], 2, 2⟩])).2 =
        List.replicate
          ((cyclesTouches [⟨0, 0, [], 0, 0⟩, ⟨0, 0, [(1, 1)], 2, 2⟩]).length
            - 1) (true, false) ++ [(false, true)] ∧
      (runAll (initialTap 0 0 2)
        (cyclesTouches [⟨0, 0, [], 0, 0⟩, ⟨0, 0, [(1, 1)], 2, 2⟩])).1.counter
        = 0 :=
  c1_n_cycles_fire_once_on_nth_end 2 0 0
    [⟨0, 0, [], 0, 0⟩, ⟨0, 0, [(1, 1)], 2, 2⟩]
    (by decide) (by decide) (by decide)

/-- C2: a call with `locked = true` always returns `false`, resets `counter`
to 0, and does not invoke the response, whatever the recognizer state and
whatever the touch phase. -/
theorem c2_locked_abandons (s : TapGestureRecognizer) (t : TouchState) :
    recognitionLoop s t true = ⟨{ s with counter := 0 }, false, false⟩ :=
  recognitionLoop_locked s t

/-- C3 (amended): at any STAY or END sample whose displacement from the
recorded START position exceeds `MAX_DELTA_MOVEMENT` on either axis (each
axis compared independently), the counter does not advance at that call —
it is reset to 0 — and the response does not fire at that call;
concretely, for `target = 1` the stream START(0,0), STAY(20,0), END(20,0)
never fires, the END call returns `false`, and the counter ends at 0.
The original cycle-scoped form ("the response is not fired for that
cycle") is refuted by `c3_counterexample`: the recognizer state holds no
invalidation flag, so an in-bound END after an out-of-bound STAY still
increments the counter and can fire. -/
theorem c3_movement_invalidation :
    (∀ (s : TapGestureRecognizer) (t : TouchState),
      (t.phase = TouchPhase.STAY ∨ t.phase = TouchPhase.END) →
      (MAX_DELTA_MOVEMENT < (t.x - s.x).natAbs ∨
        MAX_DELTA_MOVEMENT < (t.y - s.y).natAbs) →
      (recognitionLoop s t false).state.counter = 0 ∧
        (recognitionLoop s t false).fired = false) ∧
    runAll (initialTap 0 0 1)
        [⟨TouchPhase.START, 0, 0⟩, ⟨TouchPhase.STAY, 20, 0⟩,
          ⟨TouchPhase.END, 20, 0⟩] =
      (⟨0, 0, 0, 1⟩, [(true, false), (true, false), (false, false)]) := by
  constructor
  · rintro s ⟨ph, x, y⟩ hph hexc
    rcases hph with h | h <;> subst h <;>
      simp only [recognitionLoop, if_neg Bool.false_ne_true] <;>
      rw [if_pos (by simpa using hexc)] <;> exact ⟨rfl, rfl⟩
  · decide

/-- Counterexample to C3 as originally stated: with `target = 1` and
`locked = false` throughout, the stream START(0,0), STAY(20,0), END(0,0)
contains a STAY sample 20 > 10 away from the START position on the x axis,
yet the response fires on the END call (final result `(false, true)`) —
so "the response is not fired for that cycle" fails. -/
theorem c3_counterexample :
    (runAll (initialTap 0 0 1)
        [⟨TouchPhase.START, 0, 0⟩, ⟨TouchPhase.STAY, 20, 0⟩,
          ⟨TouchPhase.END, 0, 0⟩]).2 =
      [(true, false), (true, false), (false, true)] := by decide

/-- Witness for C3's per-sample part at a concrete out-of-bound STAY. -/
theorem c3_witness :
    (recognitionLoop ⟨0, 0, 0, 1⟩ ⟨TouchPhase.STAY, 20, 0⟩
        false).state.counter = 0 ∧
      (recognitionLoop ⟨0, 0, 0, 1⟩ ⟨TouchPhase.STAY, 20, 0⟩
        false).fired = false :=
  c3_movement_invalidation.1 ⟨0, 0, 0, 1⟩ ⟨TouchPhase.STAY, 20, 0⟩
    (Or.inl rfl) (by decide)

/-- C4: starting from IDLE (`counter = 0`) with `target = N ≥ 1`, after any
finite sequence of calls the counter stays in `[0, N-1]`; and on the very
call where the counter would reach N (an in-bound END with
`counter + 1 = N`) the response fires, the call returns `false`, and the
counter is reset to 0 within that call. -/
theorem c4_counter_range_invariant (N : Nat) (hN : 1 ≤ N) :
    (∀ (x0 y0 : Int) (inputs : List (TouchState × Bool)),
      (runSteps (initialTap x0 y0 N) inputs).counter < N) ∧
    (∀ (s : TapGestureRecognizer) (t : TouchState),
      s.target = N → s.counter + 1 = N → t.phase = TouchPhase.END →
      (t.x - s.x).natAbs ≤ MAX_DELTA_MOVEMENT →
      (t.y - s.y).natAbs ≤ MAX_DELTA_MOVEMENT →
      recognitionLoop s t false = ⟨{ s with counter := 0 }, false, true⟩) := by
  constructor
  · intro x0 y0 inputs
    exact runSteps_counter_lt (initialTap x0 y0 N) inputs (by simpa [initialTap])
  · rintro s ⟨ph, x, y⟩ htar hc hph hx hy
    simp only at hph
    subst hph
    exact recognitionLoop_end_fire s x y hx hy (by omega)

/-- Witness for C4 at N = 1 with a short input sequence. -/
theorem c4_witness :
    (runSteps (initialTap 0 0 1)
        [(⟨TouchPhase.START, 0, 0⟩, false),
          (⟨TouchPhase.END, 0, 0⟩, false)]).counter < 1 :=
  (c4_counter_range_invariant 1 (by decide)).1 0 0
    [(⟨TouchPhase.START, 0, 0⟩, false), (⟨TouchPhase.END, 0, 0⟩, false)]

/-- C5: `recognitionLoop` is a total function — every call, including on
malformed phase sequences (END or STAY with no preceding START) and any
`locked` value, terminates with a well-defined triple and affects nothing
beyond the returned state, the boolean return, and the fired flag: the
target never changes, the counter is only cleared, kept, or incremented,
and the position is either kept or overwritten with the sample's. -/
theorem c5_total_no_crash (s : TapGestureRecognizer) (t : TouchState)
    (l : Bool) :
    (recognitionLoop s t l).state.target = s.target ∧
    ((recognitionLoop s t l).state.counter = 0 ∨
      (recognitionLoop s t l).state.counter = s.counter ∨
      (recognitionLoop s t l).state.counter = s.counter + 1) ∧
    (((recognitionLoop s t l).state.x = s.x ∧
        (recognitionLoop s t l).state.y = s.y) ∨
      ((recognitionLoop s t l).state.x = t.x ∧
        (recognitionLoop s t l).state.y = t.y)) := by
  rcases t with ⟨ph, x, y⟩
  cases l <;> cases ph <;> simp only [recognitionLoop] <;> split_ifs <;> simp

/-- C6: the recognition step is deterministic — two calls from recognizer
states that agree on `x`, `y`, `counter` and `target`, with the same touch
sample and the same `locked` flag, produce identical results (same return
value, same successor state, same callback decision). -/
theorem c6_deterministic (s1 s2 : TapGestureRecognizer) (t : TouchState)
    (l : Bool) (hx : s1.x = s2.x) (hy : s1.y = s2.y)
    (hc : s1.counter = s2.counter) (ht : s1.target = s2.target) :
    recognitionLoop s1 t l = recognitionLoop s2 t l := by
  obtain ⟨x1, y1, c1, g1⟩ := s1
  obtain ⟨x2, y2, c2, g2⟩ := s2
  simp only at hx hy hc ht
  subst hx
  subst hy
  subst hc
  subst ht
  rfl

/-- Witness for C6 at two equal concrete states. -/
theorem c6_witness :
    recognitionLoop ⟨0, 0, 0, 1⟩ ⟨TouchPhase.NONE, 0, 0⟩ false =
      recognitionLoop ⟨0, 0, 0, 1⟩ ⟨TouchPhase.NONE, 0, 0⟩ false :=
  c6_deterministic ⟨0, 0, 0, 1⟩ ⟨0, 0, 0, 1⟩ ⟨TouchPhase.NONE, 0, 0⟩ false
    rfl rfl rfl rfl

/-- C7: the constructor's `target` argument defaults to 1, so a recognizer
built with only a callback equals one built with `target = 1`, and such a
recognizer fires after exactly one complete in-bound tap cycle: every call
of the cycle but the END returns `true` without firing, and the END fires,
returns `false`, and leaves the counter at 0. -/
theorem c7_default_target_single_tap (c : TapCycle)
    (hwb : c.withinBound = true) :
    mkTapGestureRecognizer defaultTarget = mkTapGestureRecognizer 1 ∧
    runAll (mkTapGestureRecognizer defaultTarget) c.touches =
      (⟨c.sx, c.sy, 0, 1⟩,
        List.replicate (c.stays.length + 1) (true, false) ++
          [(false, true)]) := by
  refine ⟨rfl, ?_⟩
  exact runAll_cycle_fire (mkTapGestureRecognizer 1) c hwb rfl

/-- Witness for C7 at a concrete one-tap cycle. -/
theorem c7_witness :
    runAll (mkTapGestureRecognizer defaultTarget)
        (TapCycle.touches ⟨0, 0, [], 5, 5⟩) =
      (⟨0, 0, 0, 1⟩,
        List.replicate 1 (true, false) ++ [(false, true)]) :=
  (c7_default_target_single_tap ⟨0, 0, [], 5, 5⟩ (by decide)).2

/-- Borealis theme variants (LIGHT / DARK). -/
inductive ThemeVariant where
  | LIGHT
  | DARK
deriving DecidableEq, Repr

/-- The libnx `ColorSetId_Dark` enumerator value (`ColorSetId_Light = 0`,
`ColorSetId_Dark = 1`); color set ids are modelled as natural numbers. -/
def ColorSetId_Dark : Nat := 1

/-- Theme-variant selection from the `SwitchPlatform` constructor:
`if (colorSetId == ColorSetId_Dark) themeVariant = DARK; else LIGHT;`. -/
def switchThemeVariant (colorSetId : Nat) : ThemeVariant :=
  if colorSetId = ColorSetId_Dark then ThemeVariant.DARK
  else ThemeVariant.LIGHT

/-- C8: the constructor selects the DARK theme exactly when the queried
color set id equals `ColorSetId_Dark`, and the LIGHT theme for every other
color set value. -/
theorem c8_theme_variant_dark_iff (c : Nat) :
    (switchThemeVariant c = ThemeVariant.DARK ↔ c = ColorSetId_Dark) ∧
    (switchThemeVariant c = ThemeVariant.LIGHT ↔ c ≠ ColorSetId_Dark) := by
  unfold switchThemeVariant
  split_ifs with h <;> simp [h]

/-- The libnx success test `R_SUCCEEDED(rc)`, which is `rc == 0`. -/
def R_SUCCEEDED (rc : Nat) : Bool := rc == 0

/-- Modelled from the spec: the default-locale constant `LOCALE_DEFAULT`
comes from the i18n header, which is outside the visible sources; its
particular value is immaterial to the claims about it. -/
def LOCALE_DEFAULT : String := "en-US"

/-- The eight bytes of a 64-bit language code, least significant first
(the console is little endian, so these are the bytes
`(char*)&languageCode` traverses in order). -/
def langBytes (code : Nat) : List Nat :=
  (List.range 8).map (fun i => code / 256 ^ i % 256)

/-- The C-string read from the bytes of the language code:
`std::string((char*)&languageCode)` takes the bytes up to the first NUL. -/
def langString (code : Nat) : String :=
  String.mk (((langBytes code).takeWhile (fun b => b != 0)).map
    (fun b => Char.ofNat b))

/-- The locale computed by the `SwitchPlatform` constructor from the
result code and output value of `setGetSystemLanguage`. -/
def computeLocale (rc : Nat) (languageCode : Nat) : String :=
  if R_SUCCEEDED rc then langString languageCode else LOCALE_DEFAULT

/-- C9: if `setGetSystemLanguage` fails (`rc ≠ 0`) the locale is
`LOCALE_DEFAULT`; if it succeeds (`rc = 0`) the locale is the string read
from the bytes of the 64-bit language code — either way the constructor
ends with a defined locale instead of propagating the error. -/
theorem c9_locale_fallback (rc code : Nat) :
    (rc ≠ 0 → computeLocale rc code = LOCALE_DEFAULT) ∧
    (rc = 0 → computeLocale rc code = langString code) := by
  constructor
  · intro h
    simp [computeLocale, R_SUCCEEDED, h]
  · intro h
    simp [computeLocale, R_SUCCEEDED, h]

/-- Witness for C9 at a failing result code and at a succeeding one. -/
theorem c9_witness :
    computeLocale 1 0 = LOCALE_DEFAULT ∧
      computeLocale 0 25965 = langString 25965 :=
  ⟨(c9_locale_fallback 1 0).1 (by decide),
    (c9_locale_fallback 0 25965).2 rfl⟩

/-- `SwitchPlatform::getIpAddress` body: formats the 32-bit address as
`ip & 0xff`, `(ip & 0xff00) >> 8`, `(ip & 0xff0000) >> 16`,
`(ip & 0xff000000) >> 24`, joined with dots. -/
def getIpAddress (ip : Nat) : String :=
  toString (ip &&& 0xff) ++ "." ++ toString ((ip &&& 0xff00) >>> 8) ++ "."
    ++ toString ((ip &&& 0xff0000) >>> 16) ++ "."
    ++ toString ((ip &&& 0xff000000) >>> 24)

lemma and_shiftRight (a b k : Nat) :
    (a &&& b) >>> k = (a >>> k) &&& (b >>> k) :=
  Nat.eq_of_testBit_eq fun i => by
    simp [Nat.testBit_shiftRight, Nat.testBit_and]

lemma and_255_eq_mod (n : Nat) : n &&& 255 = n % 256 := by
  simpa using Nat.and_pow_two_sub_one_eq_mod n 8

lemma ip_byte1 (n : Nat) : (n &&& 65280) >>> 8 = n / 256 % 256 := by
  have h1 : (65280 : Nat) >>> 8 = 255 := by decide
  rw [and_shiftRight, h1, and_255_eq_mod, Nat.shiftRight_eq_div_pow]

lemma ip_byte2 (n : Nat) : (n &&& 16711680) >>> 16 = n / 65536 % 256 := by
  have h1 : (16711680 : Nat) >>> 16 = 255 := by decide
  rw [and_shiftRight, h1, and_255_eq_mod, Nat.shiftRight_eq_div_pow]

lemma ip_byte3 (n : Nat) : (n &&& 4278190080) >>> 24 = n / 16777216 % 256 := by
  have h1 : (4278190080 : Nat) >>> 24 = 255 := by decide
  rw [and_shiftRight, h1, and_255_eq_mod, Nat.shiftRight_eq_div_pow]

/-- C10: for every 32-bit address, `getIpAddress` renders the dotted quad
whose decimal components are, in order, the least significant byte
(`ip % 256`), then bits 8-15, bits 16-23, and bits 24-31 of the address. -/
theorem c10_ip_dotted_quad (ip : Nat) (_h : ip < 2 ^ 32) :
    getIpAddress ip =
      toString (ip % 256) ++ "." ++ toString (ip / 256 % 256) ++ "."
        ++ toString (ip / 65536 % 256) ++ "."
        ++ toString (ip / 16777216 % 256) := by
  unfold getIpAddress
  rw [and_255_eq_mod, ip_byte1, ip_byte2, ip_byte3]

/-- Witness for C10 at the address 192.168.1.1 stored little endian. -/
theorem c10_witness :
    getIpAddress 16885952 =
      toString (16885952 % 256) ++ "." ++ toString (16885952 / 256 % 256)
        ++ "." ++ toString (16885952 / 65536 % 256) ++ "."
        ++ toString (16885952 / 16777216 % 256) :=
  c10_ip_dotted_quad 16885952 (by norm_num)

end Borealis
